import Mathlib

/-!
Verification development for the MirrorShard editor (src/main.ts).

The definitions below are a shallow embedding of the TypeScript source:
documents are Lean `String`s whose line separator is a single `'\n'`
character (one position per character, as in the CodeMirror text model),
positions and levels are `Nat`, fallible operations return `Except`,
and the tab/session manager is modelled as a pure state-passing function
over an explicit application-state structure.  External effects (the
Tauri file-system bridge, the confirmation dialog, error dialogs) enter
as explicit parameters or as an appended notice list.
-/

/-! ### JavaScript primitives

`isJsSpace` is the character class matched by the regex token `\s` in
JavaScript; `jsTrim` is `String.prototype.trim`, which strips exactly
that class from both ends. -/

def isJsSpace (c : Char) : Bool :=
  c = ' ' || c = '\t' || c = '\n' || c = '\r' ||
  c.toNat = 0x0B || c.toNat = 0x0C || c.toNat = 0xA0 || c.toNat = 0x1680 ||
  (0x2000 ≤ c.toNat && c.toNat ≤ 0x200A) ||
  c.toNat = 0x2028 || c.toNat = 0x2029 || c.toNat = 0x202F || c.toNat = 0x205F ||
  c.toNat = 0x3000 || c.toNat = 0xFEFF

def jsTrim (s : String) : String :=
  String.mk (((s.data.dropWhile isJsSpace).reverse.dropWhile isJsSpace).reverse)

/-- `countHashes cs` is the length of the maximal run of `'#'` characters
at the head of `cs`, i.e. what the greedy group `(#+)` consumes. -/
def countHashes : List Char → Nat
  | '#' :: rest => countHashes rest + 1
  | _ => 0

/-- The regex `^(#+)\s(.*)` from `parseHeadingsFromEditor` (main.ts:1589):
one-or-more `'#'` markers, one whitespace character, then the remainder of
the line.  Returns the marker count and the raw remainder on a match.
(Backtracking cannot rescue a failed greedy match here, because a shorter
marker run is necessarily followed by `'#'`, which is not whitespace.) -/
def headMatchFull (s : String) : Option (Nat × String) :=
  let cs := s.data
  let n := countHashes cs
  if n = 0 then none
  else
    match cs.drop n with
    | c :: rest => if isJsSpace c then some (n, String.mk rest) else none
    | [] => none

/-- The regex `^(#+)\s` used by the spotlight plugin (main.ts:390, 401):
same pattern without capturing the remainder. -/
def headMatch (s : String) : Option Nat :=
  Option.map Prod.fst (headMatchFull s)

/-! ### Document model

A CodeMirror `Text` splits the document into lines; every line separator
occupies one position.  We model LF-separated documents. -/

def splitLinesAux : List Char → List Char → List String
  | [], acc => [String.mk acc.reverse]
  | c :: cs, acc =>
    if c = '\n' then String.mk acc.reverse :: splitLinesAux cs []
    else splitLinesAux cs (c :: acc)

/-- The list of lines of a document (always non-empty: the empty document
has one empty line, as in CodeMirror). -/
def docLines (text : String) : List String :=
  splitLinesAux text.data []

/-- `linesWithFrom off ls` pairs each line with its start offset
(`line.from`), the first line starting at `off`; each separator adds one
position. -/
def linesWithFrom (off : Nat) : List String → List (Nat × String)
  | [] => []
  | l :: rest => (off, l) :: linesWithFrom (off + l.length + 1) rest

/-- `doc.lineAt(pos).number`: 1 plus the number of separators strictly
before `pos`; a position sitting on a separator belongs to the line that
the separator ends. -/
def lineAtNumber (text : String) (pos : Nat) : Nat :=
  1 + ((text.data.take pos).filter (fun c => c = '\n')).length

/-! ### Heading extraction (`parseHeadingsFromEditor`, main.ts:1578-1621) -/

structure Heading where
  level : Nat
  text : String
  pos : Nat
  isCollapsed : Bool
deriving DecidableEq, Repr

/-- The body of the line-by-line loop (main.ts:1586-1604): walk the lines
with their start offsets, and for every line matching `^(#+)\s(.*)` whose
trimmed remainder is non-empty, push a heading with the marker count as
level, the trimmed remainder as text, the line start as anchor and the
collapsed flag cleared. -/
def extractHeadingsAux (off : Nat) : List String → List Heading
  | [] => []
  | l :: rest =>
    match headMatchFull l with
    | some (lvl, remainder) =>
      let t := jsTrim remainder
      if t ≠ "" then
        { level := lvl, text := t, pos := off, isCollapsed := false }
          :: extractHeadingsAux (off + l.length + 1) rest
      else extractHeadingsAux (off + l.length + 1) rest
    | none => extractHeadingsAux (off + l.length + 1) rest

def extractHeadings (text : String) : List Heading :=
  extractHeadingsAux 0 (docLines text)

/-- Spec-side characterisation of the extractor: the headings of a
document are exactly the matching lines, in document order, described as
a `filterMap` over the offset-annotated line list. -/
def lineHeading : Nat × String → Option Heading :=
  fun p =>
    match headMatchFull p.2 with
    | some (lvl, remainder) =>
      if jsTrim remainder ≠ "" then
        some { level := lvl, text := jsTrim remainder, pos := p.1, isCollapsed := false }
      else none
    | none => none

def headingsSpec (text : String) : List Heading :=
  List.filterMap lineHeading (linesWithFrom 0 (docLines text))

/-- Setting the collapsed flag on a heading (the mutation
`newHeading.isCollapsed = true`). -/
def collapseHeading (h : Heading) : Heading :=
  { h with isCollapsed := true }

/-- Whether an old heading reclaims a new entry: `find` compares both the
anchor and the text (main.ts:1609). -/
def headingMatches (o h : Heading) : Bool :=
  h.pos == o.pos && h.text == o.text

/-- `newHeadings.find(h => h.pos === old.pos && h.text === old.text)`
followed by the in-place flag update: only the first matching entry is
collapsed. -/
def setCollapsedFirst (o : Heading) : List Heading → List Heading
  | [] => []
  | h :: rest =>
    if headingMatches o h then collapseHeading h :: rest
    else h :: setCollapsedFirst o rest

/-- The reconciliation pass (main.ts:1607-1614): for every previously
collapsed heading, copy the flag onto the first new entry with equal
anchor and equal text; unmatched old headings are dropped silently. -/
def reconcileHeadings (old new : List Heading) : List Heading :=
  old.foldl (fun acc o => if o.isCollapsed then setCollapsedFirst o acc else acc) new

/-- The whole of `parseHeadingsFromEditor`: re-extract, then reconcile
against the previous heading list. -/
def parseHeadingsFromEditor (old : List Heading) (text : String) : List Heading :=
  reconcileHeadings old (extractHeadings text)

/-- `anyHeadingMatch old h`: some previously collapsed heading has the
same anchor and text as `h`. -/
def anyHeadingMatch (old : List Heading) (h : Heading) : Bool :=
  old.any (fun o => o.isCollapsed && headingMatches o h)

/-! ### Spotlight focus (`createSpotlightPlugin.getDecorations`, main.ts:375-418)

The backward loop
`for (let line = doc.lineAt(from); line.number >= 1; line = doc.line(line.number - 1))`
evaluates its update expression before re-checking the condition, so when
line 1 does not match the pattern it requests `doc.line(0)`, which the
CodeMirror text model rejects with a `RangeError`.  `scanUp` therefore
returns an error when the scanned lines are exhausted. -/

def scanUp : List (Nat × String) → Except String (Nat × Nat)
  | [] => Except.error "RangeError: invalid line number 0"
  | (off, s) :: rest =>
    match headMatch s with
    | some lvl => Except.ok (off, lvl)
    | none => scanUp rest

/-- The forward loop (main.ts:399-406): from the line after the section
start, the first heading whose level is at most the current level puts
the section end one position before its line start; otherwise the section
end is the document end. -/
def scanDown (level docLen : Nat) : List (Nat × String) → Nat
  | [] => docLen
  | (off, s) :: rest =>
    match headMatch s with
    | some lvl => if lvl ≤ level then off - 1 else scanDown level docLen rest
    | none => scanDown level docLen rest

/-- `getDecorations`: the list of `(from, to)` pairs handed to
`builder.add` for the `cm-unfocused` mark, or the error raised by the
backward scan.  `isActive` is the plugin's spotlight flag and `cursor`
the main selection head. -/
def getDecorations (isActive : Bool) (text : String) (cursor : Nat) :
    Except String (List (Nat × Nat)) :=
  if isActive = false || text.length = 0 then Except.ok []
  else
    let lwf := linesWithFrom 0 (docLines text)
    let docLen := text.length
    let k := lineAtNumber text cursor
    match scanUp (List.reverse (lwf.take k)) with
    | Except.error e => Except.error e
    | Except.ok (startPos, currentLevel) =>
      let startLine := lineAtNumber text startPos
      let endPos := scanDown currentLevel docLen (lwf.drop startLine)
      let r1 := if startPos > 0 then [(0, startPos - 1)] else []
      let r2 := if endPos < docLen then [(endPos + 1, docLen)] else []
      Except.ok (r1 ++ r2)

/-! ### Editor state and the tab/session manager (main.ts:1497-1723)

An `EState` is the part of a CodeMirror `EditorState` the manager
observes: the document plus the contents of the five configuration
compartments (theme, font family, font size, highlight style, spotlight)
that `openOrSwitchTab` reconfigures (main.ts:1680-1690). -/

inductive FontCfg
  | custom (name : String)
  | indexed (i : Nat)
deriving DecidableEq, Repr

structure EState where
  doc : String
  isDark : Bool
  fontFamily : FontCfg
  fontSize : Int
  highlightDark : Bool
  spotlight : Bool
deriving DecidableEq, Repr

structure OpenTab where
  path : String
  state : EState
  isDirty : Bool
  encoding : String
  lineEnding : String
  headings : List Heading
deriving DecidableEq, Repr

/-- The payload of the `read_file` command (main.ts:1642-1646). -/
structure FileData where
  content : String
  encoding : String
  lineEnding : String
deriving DecidableEq, Repr

/-- The fields of the `App` class that the tab-manager claims concern.
`editorViewState` is the live widget state (`this.editorView.state`);
`notices` records the error dialogs shown by `message`. -/
structure AppState where
  openTabs : List OpenTab
  activeTabPath : Option String
  editorViewState : EState
  activeFileHeadings : List Heading
  isDarkMode : Bool
  currentFontIndex : Nat
  userFontFamily : String
  currentFontSize : Int
  isSpotlightMode : Bool
  recentFiles : List String
  notices : List String
deriving DecidableEq, Repr

/-- `getCurrentFontTheme` (main.ts:355-363): a user-chosen family wins
over the cycling index unless it is empty or the literal `"default"`. -/
def getCurrentFontTheme (app : AppState) : FontCfg :=
  if app.userFontFamily ≠ "" ∧ app.userFontFamily ≠ "default" then
    FontCfg.custom app.userFontFamily
  else FontCfg.indexed app.currentFontIndex

/-- The compartment reconfiguration applied on every switch
(main.ts:1680-1690): overwrite the five configuration slots of a stored
state with the current values, leaving the document untouched. -/
def applyConfig (app : AppState) (st : EState) : EState :=
  { st with
    isDark := app.isDarkMode
    fontFamily := getCurrentFontTheme app
    fontSize := app.currentFontSize
    highlightDark := app.isDarkMode
    spotlight := app.isSpotlightMode }

/-- `EditorState.create` with the current extension set
(main.ts:1499, 1648-1651): a fresh state already carries the current
configuration. -/
def freshEState (app : AppState) (docText : String) : EState :=
  { doc := docText
    isDark := app.isDarkMode
    fontFamily := getCurrentFontTheme app
    fontSize := app.currentFontSize
    highlightDark := app.isDarkMode
    spotlight := app.isSpotlightMode }

/-- Update the first tab with the given path, in place; the JS original
is `openTabs.find(...)` followed by field assignments on the found
object. -/
def updateFirstTab (p : String) (f : OpenTab → OpenTab) : List OpenTab → List OpenTab
  | [] => []
  | t :: ts => if t.path == p then f t :: ts else t :: updateFirstTab p f ts

/-- The capture step of `openOrSwitchTab` (main.ts:1630-1634): before
switching, store the live widget state and the live outline back into the
previously active tab, when there is one. -/
def capturePrev (app : AppState) : AppState :=
  match app.activeTabPath with
  | none => app
  | some prev =>
    { app with
      openTabs := updateFirstTab prev
        (fun t => { t with state := app.editorViewState, headings := app.activeFileHeadings })
        app.openTabs }

/-- `addToHistory` (main.ts:1179-1191). -/
def addToHistory (p : String) (rs : List String) : List String :=
  if p = "Untitled" then rs
  else
    let l := p :: rs.filter (fun q => q ≠ p)
    if l.length > 10 then l.dropLast else l

/-- The dialog text of the read-failure branch (main.ts:1665-1668),
abstracted to carry the underlying error. -/
def readErrNotice (e : String) : String :=
  "Failed to read the file: " ++ e

/-- The activation tail of `openOrSwitchTab` (main.ts:1674-1722): record
the new active path, compose the current configuration on top of the
target tab's stored state, write the composed state back into the tab and
into the widget, restore the tab's outline and re-run the heading parse
on the composed document. -/
def activateTab (app : AppState) (filePath : String) (tab : OpenTab) : AppState :=
  let composed := applyConfig app tab.state
  { app with
    activeTabPath := some filePath
    openTabs := updateFirstTab filePath (fun t => { t with state := composed }) app.openTabs
    editorViewState := composed
    activeFileHeadings := parseHeadingsFromEditor tab.headings composed.doc }

/-- `openOrSwitchTab` (main.ts:1623-1723).  `fs` is the `read_file`
bridge: `Except.error` is a rejected invoke, caught by the local
`try`/`catch`, which shows an error dialog and aborts. -/
def openOrSwitchTab (fs : String → Except String FileData) (app0 : AppState)
    (filePath : String) : AppState :=
  if app0.activeTabPath = some filePath then app0
  else
    let app := capturePrev app0
    match app.openTabs.find? (fun t => t.path == filePath) with
    | some tab => activateTab app filePath tab
    | none =>
      match fs filePath with
      | Except.error e => { app with notices := app.notices ++ [readErrNotice e] }
      | Except.ok fd =>
        let tab : OpenTab :=
          { path := filePath
            state := freshEState app fd.content
            isDirty := false
            encoding := fd.encoding
            lineEnding := fd.lineEnding
            headings := [] }
        let app2 :=
          { app with
            openTabs := app.openTabs ++ [tab]
            recentFiles := addToHistory filePath app.recentFiles }
        activateTab app2 filePath tab

/-- `createNewTab` (main.ts:1497-1513): push a blank `"Untitled"` tab,
then delegate to `openOrSwitchTab "Untitled"`. -/
def createNewTab (fs : String → Except String FileData) (app : AppState) : AppState :=
  let tab : OpenTab :=
    { path := "Untitled"
      state := freshEState app ""
      isDirty := false
      encoding := "UTF-8"
      lineEnding := "LF"
      headings := [] }
  openOrSwitchTab fs { app with openTabs := app.openTabs ++ [tab] } "Untitled"

/-- `closeTab` (main.ts:1515-1552).  `confirmDiscard` is the result of
the `ask` confirmation dialog; it is consulted only when the tab is
dirty. -/
def closeTab (fs : String → Except String FileData) (app : AppState) (p : String)
    (confirmDiscard : Bool) : AppState :=
  match app.openTabs.find? (fun t => t.path == p) with
  | none => app
  | some tab =>
    if tab.isDirty = true ∧ confirmDiscard = false then app
    else
      let index := app.openTabs.findIdx (fun t => t.path == p)
      let app1 := { app with openTabs := app.openTabs.eraseIdx index }
      if app.activeTabPath = some p then
        if app1.openTabs.length = 0 then
          createNewTab fs { app1 with activeTabPath := none }
        else
          match app1.openTabs.get? (index - 1) with
          | some t => openOrSwitchTab fs app1 t.path
          | none => app1
      else app1

/-! ### Cursor clamp filter (`preventCursorBeyondDocEndFilter`, main.ts:93-102) -/

structure EdSelection where
  anchor : Nat
  head : Nat
deriving DecidableEq, Repr

/-- A dispatched transaction, as the filter sees it: the new document,
the selection the transaction sets (if any), and — for transactions that
set none — the head position CodeMirror obtains by mapping the previous
selection through the change set. -/
structure EdTransaction where
  newDoc : String
  selection : Option EdSelection
  mappedHead : Nat
deriving DecidableEq, Repr

/-- The transaction filter: a selection whose main head exceeds the new
document length is replaced by `{ anchor: docEnd }`, i.e. a cursor whose
anchor and head are both the document end. -/
def preventCursorBeyondDocEndFilter (tr : EdTransaction) : EdTransaction :=
  match tr.selection with
  | none => tr
  | some sel =>
    if sel.head > tr.newDoc.length then
      { tr with selection := some { anchor := tr.newDoc.length, head := tr.newDoc.length } }
    else tr

structure EdViewState where
  doc : String
  cursor : Nat
deriving DecidableEq, Repr

/-- Applying a filtered transaction: the document becomes the new
document; the cursor becomes the (filtered) selection head, or the mapped
head when the transaction sets no selection. -/
def applyTransaction (_st : EdViewState) (tr : EdTransaction) : EdViewState :=
  let tr2 := preventCursorBeyondDocEndFilter tr
  { doc := tr2.newDoc
    cursor :=
      match tr2.selection with
      | some sel => sel.head
      | none => tr.mappedHead }

/-- CodeMirror's contract for transactions that set no selection: mapping
a position through a change set never exceeds the new document length. -/
def WFTransaction (tr : EdTransaction) : Prop :=
  tr.selection = none → tr.mappedHead ≤ tr.newDoc.length

def applyTransactions (st : EdViewState) (trs : List EdTransaction) : EdViewState :=
  trs.foldl applyTransaction st

/-! ### Font size (`changeFontSize`, main.ts:1231-1236, and the restore
in `loadSettings`, main.ts:283-284) -/

structure FontSizeState where
  currentFontSize : Int
  reconfigures : Nat
  saves : Nat
deriving DecidableEq, Repr

def changeFontSize (newSize : Int) (st : FontSizeState) : FontSizeState :=
  if newSize < 8 ∨ newSize > 72 then st
  else
    { currentFontSize := newSize
      reconfigures := st.reconfigures + 1
      saves := st.saves + 1 }

/-- `this.currentFontSize = savedFontSize ?? this.currentFontSize`
(main.ts:284): the persisted value is restored with no range check. -/
def loadSettingsFontSize (saved : Option Int) (st : FontSizeState) : FontSizeState :=
  { st with currentFontSize := saved.getD st.currentFontSize }

/-- The field initialiser `currentFontSize = 15` (main.ts:43). -/
def fontSizeStart : FontSizeState :=
  { currentFontSize := 15, reconfigures := 0, saves := 0 }

/-! ### Background image settings (listener main.ts:230-237 and
`updateBackground`, main.ts:1030-1051) -/

/-- The value written to the `--app-bg-image` CSS variable: `'none'`, a
`url(...)` of the converted user path, or the `url(...)` of the built-in
default image. -/
inductive BgCss
  | cssNone
  | userUrl (path : String)
  | defaultUrl
deriving DecidableEq, Repr

structure BackgroundState where
  isDarkMode : Bool
  userBackgroundImagePath : Option String
  cssBgImage : BgCss
deriving DecidableEq, Repr

/-- `updateBackground`: dark mode always renders `'none'`; otherwise a
truthy user path renders its converted URL and anything else renders the
built-in default image. -/
def updateBackground (st : BackgroundState) : BackgroundState :=
  if st.isDarkMode then { st with cssBgImage := BgCss.cssNone }
  else
    match st.userBackgroundImagePath with
    | some p =>
      if p ≠ "" then { st with cssBgImage := BgCss.userUrl p }
      else { st with cssBgImage := BgCss.defaultUrl }
    | none => { st with cssBgImage := BgCss.defaultUrl }

/-- The coercion `x || undefined`: `null`, `undefined` and the empty
string all become `undefined` (`none`); other strings pass through. -/
def jsOrUndef (v : Option String) : Option String :=
  match v with
  | none => none
  | some s => if s = "" then none else some s

/-- Strict `!==` between the stored field (a string or `undefined`) and
the payload value (a string or `null`): unequal unless both are strings
and equal (`undefined !== null` is true in JavaScript). -/
def strictNeqFieldPayload (field v : Option String) : Bool :=
  match field, v with
  | some a, some b => a != b
  | _, _ => true

/-- The `userBackgroundImagePath` branch of the `settings-changed`
listener (main.ts:230-237).  The payload field is `none` when absent,
`some none` for an explicit `null`, `some (some s)` for a string. -/
def applyBackgroundSetting (payload : Option (Option String)) (st : BackgroundState) :
    BackgroundState :=
  match payload with
  | none => st
  | some v =>
    if strictNeqFieldPayload st.userBackgroundImagePath v || v.isNone then
      updateBackground { st with userBackgroundImagePath := jsOrUndef v }
    else st

/-! ### BGM settings (listener main.ts:239-253, `loadBGMData`,
main.ts:538-587) -/

structure BgmAudioState where
  userBgmPath : Option String
  loadedSource : Option String
  loadCount : Nat
  playCount : Nat
  isBgmPlaying : Bool
deriving DecidableEq, Repr

/-- The source `loadBGMData` resolves from the stored path
(main.ts:550, 571): a truthy path with non-blank trim is the user file;
everything else is the built-in default track (`none`). -/
def resolveBgmSource (p : Option String) : Option String :=
  match p with
  | some s => if s ≠ "" ∧ jsTrim s ≠ "" then some s else none
  | none => none

/-- The `userBgmPath` branch of the `settings-changed` listener
(main.ts:239-253): reload and restart only when the coerced path differs
from the stored one; `loadCount` counts `loadBGMData` calls (each a
teardown plus reload) and `playCount` counts `playBGM` calls. -/
def applyBgmSetting (payload : Option (Option String)) (st : BgmAudioState) :
    BgmAudioState :=
  match payload with
  | none => st
  | some v =>
    if st.userBgmPath ≠ jsOrUndef v then
      { userBgmPath := jsOrUndef v
        loadedSource := resolveBgmSource (jsOrUndef v)
        loadCount := st.loadCount + 1
        playCount := st.playCount + 1
        isBgmPlaying := true }
    else st

/-! ### Lemmas about heading extraction and reconciliation -/

theorem extractHeadingsAux_eq_filterMap (ls : List String) :
    ∀ off, extractHeadingsAux off ls = List.filterMap lineHeading (linesWithFrom off ls) := by
  induction ls with
  | nil => intro off; rfl
  | cons l rest ih =>
    intro off
    simp only [extractHeadingsAux, linesWithFrom, List.filterMap_cons]
    cases hm : headMatchFull l with
    | none =>
      simp only [lineHeading, hm]
      exact ih (off + l.length + 1)
    | some p =>
      obtain ⟨lvl, remainder⟩ := p
      simp only [lineHeading, hm]
      by_cases ht : jsTrim remainder ≠ ""
      · simp only [if_pos ht, ih (off + l.length + 1)]
      · simp only [if_neg ht, ih (off + l.length + 1)]

theorem extractHeadings_eq_spec (text : String) :
    extractHeadings text = headingsSpec text :=
  extractHeadingsAux_eq_filterMap (docLines text) 0

theorem extractHeadingsAux_pos_ge (ls : List String) :
    ∀ off h, h ∈ extractHeadingsAux off ls → off ≤ h.pos := by
  induction ls with
  | nil => intro off h hh; simp [extractHeadingsAux] at hh
  | cons l rest ih =>
    intro off h hh
    simp only [extractHeadingsAux] at hh
    cases hm : headMatchFull l with
    | none =>
      simp only [hm] at hh
      have := ih (off + l.length + 1) h hh
      omega
    | some p =>
      obtain ⟨lvl, remainder⟩ := p
      simp only [hm] at hh
      by_cases ht : jsTrim remainder ≠ ""
      · simp only [if_pos ht] at hh
        rcases List.mem_cons.mp hh with h1 | h2
        · subst h1; exact Nat.le_refl _
        · have := ih (off + l.length + 1) h h2
          omega
      · simp only [if_neg ht] at hh
        have := ih (off + l.length + 1) h hh
        omega

theorem extractHeadingsAux_pairwise (ls : List String) :
    ∀ off, (extractHeadingsAux off ls).Pairwise (fun a b => a.pos ≠ b.pos) := by
  induction ls with
  | nil => intro off; simp [extractHeadingsAux]
  | cons l rest ih =>
    intro off
    simp only [extractHeadingsAux]
    cases hm : headMatchFull l with
    | none => simp only [hm]; exact ih (off + l.length + 1)
    | some p =>
      obtain ⟨lvl, remainder⟩ := p
      simp only [hm]
      by_cases ht : jsTrim remainder ≠ ""
      · simp only [if_pos ht]
        refine List.Pairwise.cons ?_ (ih (off + l.length + 1))
        intro b hb
        have := extractHeadingsAux_pos_ge rest (off + l.length + 1) b hb
        simp only
        omega
      · simp only [if_neg ht]
        exact ih (off + l.length + 1)

/-- The headings produced by a re-extraction have pairwise distinct
anchors (each line contributes at most one heading). -/
theorem extractHeadings_pairwise (text : String) :
    (extractHeadings text).Pairwise (fun a b => a.pos ≠ b.pos) :=
  extractHeadingsAux_pairwise (docLines text) 0

theorem map_id_of_mem {α : Type} (f : α → α) :
    ∀ ls : List α, (∀ x ∈ ls, f x = x) → ls.map f = ls := by
  intro ls
  induction ls with
  | nil => intro _; rfl
  | cons x xs ih =>
    intro h
    simp only [List.map_cons, h x (List.mem_cons_self x xs),
      ih (fun y hy => h y (List.mem_cons_of_mem x hy))]

theorem headingMatches_collapse (o h : Heading) :
    headingMatches o (collapseHeading h) = headingMatches o h := rfl

theorem anyHeadingMatch_collapse (old : List Heading) (h : Heading) :
    anyHeadingMatch old (collapseHeading h) = anyHeadingMatch old h := rfl

theorem setCollapsedFirst_eq_map (o : Heading) :
    ∀ ls : List Heading, ls.Pairwise (fun a b => a.pos ≠ b.pos) →
      setCollapsedFirst o ls
        = ls.map (fun h => if headingMatches o h then collapseHeading h else h) := by
  intro ls
  induction ls with
  | nil => intro _; rfl
  | cons h rest ih =>
    intro hnd
    have hndr := (List.pairwise_cons.mp hnd).2
    have hhd := (List.pairwise_cons.mp hnd).1
    simp only [setCollapsedFirst, List.map_cons]
    by_cases hm : headingMatches o h
    · rw [if_pos hm, if_pos hm]
      have : rest.map (fun x => if headingMatches o x then collapseHeading x else x) = rest := by
        refine map_id_of_mem _ rest ?_
        intro b hb
        have hbm : headingMatches o b = false := by
          have hpos : h.pos ≠ b.pos := hhd b hb
          have hhp : h.pos = o.pos := by
            simp only [headingMatches, Bool.and_eq_true, beq_iff_eq] at hm
            exact hm.1
          simp only [headingMatches, Bool.and_eq_true, beq_iff_eq, Bool.and_eq_false_iff]
          left
          simp only [beq_eq_false_iff_ne, ne_eq]
          omega
        rw [hbm]
        simp
      rw [this]
    · rw [if_neg hm, if_neg hm, ih hndr]

theorem reconcileHeadings_nil (new : List Heading) :
    reconcileHeadings [] new = new := rfl

theorem reconcileHeadings_cons (o : Heading) (old new : List Heading) :
    reconcileHeadings (o :: old) new
      = reconcileHeadings old (if o.isCollapsed then setCollapsedFirst o new else new) := by
  simp [reconcileHeadings, List.foldl_cons]

theorem anyHeadingMatch_cons (o : Heading) (old : List Heading) (h : Heading) :
    anyHeadingMatch (o :: old) h
      = ((o.isCollapsed && headingMatches o h) || anyHeadingMatch old h) := by
  simp [anyHeadingMatch, List.any_cons]

/-- Under pairwise-distinct anchors (which every extraction satisfies),
the imperative reconciliation pass is the pointwise map that collapses
exactly the entries reclaimed by some previously collapsed heading with
equal anchor and equal text. -/
theorem reconcileHeadings_eq_map (old : List Heading) :
    ∀ new : List Heading, new.Pairwise (fun a b => a.pos ≠ b.pos) →
      reconcileHeadings old new
        = new.map (fun h => if anyHeadingMatch old h then collapseHeading h else h) := by
  induction old with
  | nil =>
    intro new _
    rw [reconcileHeadings_nil]
    symm
    refine map_id_of_mem _ new ?_
    intro h _
    simp [anyHeadingMatch]
  | cons o old ih =>
    intro new hnd
    rw [reconcileHeadings_cons]
    by_cases hc : o.isCollapsed
    · rw [if_pos hc, setCollapsedFirst_eq_map o new hnd]
      have hnd2 : (new.map (fun h => if headingMatches o h then collapseHeading h else h)).Pairwise
          (fun a b => a.pos ≠ b.pos) := by
        rw [List.pairwise_map]
        refine hnd.imp_of_mem ?_
        intro a b _ _ hab
        by_cases h1 : headingMatches o a <;> by_cases h2 : headingMatches o b <;>
          simp [h1, h2, collapseHeading, hab]
      rw [ih _ hnd2, List.map_map]
      refine List.map_congr_left ?_
      intro h _
      simp only [Function.comp_apply]
      by_cases hm : headingMatches o h
      · rw [if_pos hm, anyHeadingMatch_collapse, anyHeadingMatch_cons, hc, hm]
        simp only [Bool.true_and, Bool.true_or, if_pos]
        by_cases ha : anyHeadingMatch old h
        · rw [if_pos ha]; rfl
        · rw [if_neg ha]
      · have hm' : headingMatches o h = false := by
          simpa using hm
        rw [if_neg hm, anyHeadingMatch_cons, hm']
        simp only [Bool.and_false, Bool.false_or]
    · rw [if_neg hc, ih _ hnd]
      refine List.map_congr_left ?_
      intro h _
      rw [anyHeadingMatch_cons]
      have : o.isCollapsed = false := by
        cases hcc : o.isCollapsed
        · rfl
        · exact absurd hcc hc
      rw [this]
      simp only [Bool.false_and, Bool.false_or]

/-! ### Lemmas about the tab list -/

theorem updateFirstTab_no_match (p : String) (f : OpenTab → OpenTab) :
    ∀ ts : List OpenTab, (∀ t ∈ ts, t.path ≠ p) → updateFirstTab p f ts = ts := by
  intro ts
  induction ts with
  | nil => intro _; rfl
  | cons t ts ih =>
    intro h
    have ht : (t.path == p) = false := by
      simp only [beq_eq_false_iff_ne, ne_eq]
      exact h t (List.mem_cons_self t ts)
    simp only [updateFirstTab, ht, Bool.false_eq_true, if_false, List.cons.injEq, true_and]
    exact ih (fun x hx => h x (List.mem_cons_of_mem t hx))

theorem find?_updateFirstTab_ne (p q : String) (f : OpenTab → OpenTab)
    (hf : ∀ t, (f t).path = t.path) (hne : p ≠ q) :
    ∀ ts : List OpenTab,
      (updateFirstTab p f ts).find? (fun t => t.path == q)
        = ts.find? (fun t => t.path == q) := by
  intro ts
  induction ts with
  | nil => rfl
  | cons t ts ih =>
    by_cases hp : t.path = p
    · have hp' : (t.path == p) = true := by simpa using hp
      have hq : ((f t).path == q) = false := by
        simp only [beq_eq_false_iff_ne, ne_eq, hf t, hp]
        exact hne
      have hq2 : (t.path == q) = false := by
        simp only [beq_eq_false_iff_ne, ne_eq, hp]
        exact hne
      simp only [updateFirstTab, hp', if_true, List.find?_cons, hq, hq2]
    · have hp' : (t.path == p) = false := by simpa using hp
      simp only [updateFirstTab, hp', Bool.false_eq_true, if_false, List.find?_cons]
      cases hq : (t.path == q) with
      | true => rfl
      | false => exact ih

theorem find?_updateFirstTab_eq (q : String) (f : OpenTab → OpenTab)
    (hf : ∀ t, (f t).path = t.path) :
    ∀ ts : List OpenTab,
      (updateFirstTab q f ts).find? (fun t => t.path == q)
        = Option.map f (ts.find? (fun t => t.path == q)) := by
  intro ts
  induction ts with
  | nil => rfl
  | cons t ts ih =>
    by_cases hp : t.path = q
    · have hp' : (t.path == q) = true := by simpa using hp
      have hfq : ((f t).path == q) = true := by
        simp only [beq_iff_eq, hf t]
        exact hp
      simp only [updateFirstTab, hp', if_true, List.find?_cons, hfq, Option.map_some']
    · have hp' : (t.path == q) = false := by simpa using hp
      simp only [updateFirstTab, hp', Bool.false_eq_true, if_false, List.find?_cons, ih]

theorem find?_append_last (q : String) (b : OpenTab) (hb : b.path = q) :
    ∀ ts : List OpenTab, (∀ t ∈ ts, t.path ≠ q) →
      (ts ++ [b]).find? (fun t => t.path == q) = some b := by
  intro ts
  induction ts with
  | nil =>
    intro _
    simp only [List.nil_append, List.find?_cons]
    have : (b.path == q) = true := by simpa using hb
    rw [this]
  | cons t ts ih =>
    intro h
    have ht : (t.path == q) = false := by
      simp only [beq_eq_false_iff_ne, ne_eq]
      exact h t (List.mem_cons_self t ts)
    simp only [List.cons_append, List.find?_cons, ht]
    exact ih (fun x hx => h x (List.mem_cons_of_mem t hx))

theorem map_pathDirty_updateFirstTab (p : String) (f : OpenTab → OpenTab)
    (hf : ∀ t, (f t).path = t.path ∧ (f t).isDirty = t.isDirty) :
    ∀ ts : List OpenTab,
      (updateFirstTab p f ts).map (fun t => (t.path, t.isDirty))
        = ts.map (fun t => (t.path, t.isDirty)) := by
  intro ts
  induction ts with
  | nil => rfl
  | cons t ts ih =>
    cases hp : (t.path == p) with
    | true =>
      simp only [updateFirstTab, hp, if_true, List.map_cons, (hf t).1, (hf t).2]
    | false =>
      simp only [updateFirstTab, hp, Bool.false_eq_true, if_false, List.map_cons, ih]

theorem map_path_updateFirstTab (p : String) (f : OpenTab → OpenTab)
    (hf : ∀ t, (f t).path = t.path) :
    ∀ ts : List OpenTab,
      (updateFirstTab p f ts).map (fun t => t.path) = ts.map (fun t => t.path) := by
  intro ts
  induction ts with
  | nil => rfl
  | cons t ts ih =>
    cases hp : (t.path == p) with
    | true => simp only [updateFirstTab, hp, if_true, List.map_cons, hf t]
    | false => simp only [updateFirstTab, hp, Bool.false_eq_true, if_false, List.map_cons, ih]

/-! ### Lemmas about the capture step -/

theorem capturePrev_activeTabPath (app : AppState) :
    (capturePrev app).activeTabPath = app.activeTabPath := by
  cases h : app.activeTabPath <;> simp [capturePrev, h]

theorem capturePrev_editorViewState (app : AppState) :
    (capturePrev app).editorViewState = app.editorViewState := by
  cases h : app.activeTabPath <;> simp [capturePrev, h]

theorem capturePrev_notices (app : AppState) :
    (capturePrev app).notices = app.notices := by
  cases h : app.activeTabPath <;> simp [capturePrev, h]

theorem capturePrev_map_pathDirty (app : AppState) :
    (capturePrev app).openTabs.map (fun t => (t.path, t.isDirty))
      = app.openTabs.map (fun t => (t.path, t.isDirty)) := by
  cases h : app.activeTabPath with
  | none => simp [capturePrev, h]
  | some prev =>
    simp only [capturePrev, h]
    exact map_pathDirty_updateFirstTab prev
      (fun t => { t with state := app.editorViewState, headings := app.activeFileHeadings })
      (fun t => ⟨rfl, rfl⟩) app.openTabs

theorem capturePrev_map_path (app : AppState) :
    (capturePrev app).openTabs.map (fun t => t.path)
      = app.openTabs.map (fun t => t.path) := by
  cases h : app.activeTabPath with
  | none => simp [capturePrev, h]
  | some prev =>
    simp only [capturePrev, h]
    exact map_path_updateFirstTab prev
      (fun t => { t with state := app.editorViewState, headings := app.activeFileHeadings })
      (fun t => rfl) app.openTabs

theorem find?_capturePrev_ne (app : AppState) (q : String)
    (hq : app.activeTabPath ≠ some q) :
    (capturePrev app).openTabs.find? (fun t => t.path == q)
      = app.openTabs.find? (fun t => t.path == q) := by
  cases h : app.activeTabPath with
  | none => simp [capturePrev, h]
  | some prev =>
    have hne : prev ≠ q := by
      intro hh
      exact hq (by rw [h, hh])
    simp only [capturePrev, h]
    exact find?_updateFirstTab_ne prev q
      (fun t => { t with state := app.editorViewState, headings := app.activeFileHeadings })
      (fun t => rfl) hne app.openTabs

theorem applyConfig_capturePrev (app : AppState) (st : EState) :
    applyConfig (capturePrev app) st = applyConfig app st := by
  cases h : app.activeTabPath <;> simp [capturePrev, h, applyConfig, getCurrentFontTheme]

/-! ### Helper lemmas for the claim theorems -/

theorem applyTransaction_cursor_le (st : EdViewState) (tr : EdTransaction)
    (h : WFTransaction tr) :
    (applyTransaction st tr).cursor ≤ (applyTransaction st tr).doc.length := by
  cases hsel : tr.selection with
  | none =>
    simp only [applyTransaction, preventCursorBeyondDocEndFilter, hsel]
    exact h hsel
  | some sel =>
    by_cases hlt : sel.head > tr.newDoc.length
    · simp only [applyTransaction, preventCursorBeyondDocEndFilter, hsel, if_pos hlt]
      exact Nat.le_refl _
    · simp only [applyTransaction, preventCursorBeyondDocEndFilter, hsel, if_neg hlt]
      omega

theorem applyTransactions_cursor_le (trs : List EdTransaction) :
    ∀ st : EdViewState, st.cursor ≤ st.doc.length →
      (∀ tr ∈ trs, WFTransaction tr) →
      (applyTransactions st trs).cursor ≤ (applyTransactions st trs).doc.length := by
  induction trs with
  | nil => intro st h _; exact h
  | cons tr trs ih =>
    intro st h hwf
    simp only [applyTransactions, List.foldl_cons]
    exact ih (applyTransaction st tr)
      (applyTransaction_cursor_le st tr (hwf tr (List.mem_cons_self tr trs)))
      (fun x hx => hwf x (List.mem_cons_of_mem tr hx))

theorem changeFontSize_foldl_range (ns : List Int) :
    ∀ st : FontSizeState,
      8 ≤ st.currentFontSize → st.currentFontSize ≤ 72 →
      8 ≤ (ns.foldl (fun s n => changeFontSize n s) st).currentFontSize ∧
        (ns.foldl (fun s n => changeFontSize n s) st).currentFontSize ≤ 72 := by
  induction ns with
  | nil => intro st h1 h2; exact ⟨h1, h2⟩
  | cons n ns ih =>
    intro st h1 h2
    simp only [List.foldl_cons]
    by_cases hout : n < 8 ∨ n > 72
    · rw [show changeFontSize n st = st from by simp [changeFontSize, hout]]
      exact ih st h1 h2
    · have hin : ¬(n < 8 ∨ n > 72) := hout
      rw [show changeFontSize n st
            = { currentFontSize := n, reconfigures := st.reconfigures + 1,
                saves := st.saves + 1 } from by simp [changeFontSize, hout]]
      refine ih _ ?_ ?_
      · show (8 : Int) ≤ n
        omega
      · show n ≤ (72 : Int)
        omega

theorem applyBgmSetting_noop_of_eq (st : BgmAudioState) (v : Option String)
    (h : jsOrUndef v = st.userBgmPath) :
    applyBgmSetting (some v) st = st := by
  simp only [applyBgmSetting]
  rw [if_neg (by rw [h]; exact fun hh => hh rfl)]

/-! ### C3 — spotlight evaluation -/

/-- C3 (code bug): on the single-line document `"x"` with the cursor at
offset 0 and spotlight enabled, the backward scan finds no heading on or
above the cursor line and then requests line 0, which raises a
`RangeError`, instead of yielding the zero dim ranges the claim demands.
The remaining conjuncts check the parts of the claim that the code does
satisfy: the worked example from the spec (cursor inside `"y"` of
`"# A\nx\n## B\ny\n# C\nz"` dims exactly the region before `"## B"` and
the region from `"# C"` on, leaving `"## B\ny"` unflagged), the empty
document and the disabled plugin. -/
theorem spotlight_no_heading_raises_rangeError :
    getDecorations true "x" 0 = Except.error "RangeError: invalid line number 0"
    ∧ getDecorations true "# A\nx\n## B\ny\n# C\nz" 11 = Except.ok [(0, 5), (13, 18)]
    ∧ getDecorations true "" 0 = Except.ok []
    ∧ getDecorations false "x" 0 = Except.ok [] :=
  ⟨rfl, rfl, rfl, rfl⟩

/-! ### C4 — closing a dirty tab and declining -/

/-- C4: when `closeTab` is invoked on a dirty tab and the confirmation
dialog is declined, the operation aborts silently: the resulting state is
exactly the input state, so the open-tab list, the active tab, the tab's
stored state and the notice list are all unchanged. -/
theorem closeTab_dirty_declined_noop
    (fs : String → Except String FileData) (app : AppState) (p : String) (tab : OpenTab)
    (hfind : app.openTabs.find? (fun t => t.path == p) = some tab)
    (hdirty : tab.isDirty = true) :
    closeTab fs app p false = app := by
  simp only [closeTab, hfind]
  rw [if_pos ⟨hdirty, trivial⟩]

/-- Witness for C4 at a concrete one-tab session. -/
theorem closeTab_dirty_declined_noop_witness :
    closeTab (fun _ => Except.error "boom")
      { openTabs := [{ path := "a.md",
                       state := { doc := "hello", isDark := false,
                                  fontFamily := FontCfg.indexed 1, fontSize := 15,
                                  highlightDark := false, spotlight := false },
                       isDirty := true, encoding := "UTF-8", lineEnding := "LF",
                       headings := [] }],
        activeTabPath := some "a.md",
        editorViewState := { doc := "hello", isDark := false,
                             fontFamily := FontCfg.indexed 1, fontSize := 15,
                             highlightDark := false, spotlight := false },
        activeFileHeadings := [], isDarkMode := false, currentFontIndex := 1,
        userFontFamily := "default", currentFontSize := 15, isSpotlightMode := false,
        recentFiles := [], notices := [] }
      "a.md" false
      = { openTabs := [{ path := "a.md",
                         state := { doc := "hello", isDark := false,
                                    fontFamily := FontCfg.indexed 1, fontSize := 15,
                                    highlightDark := false, spotlight := false },
                         isDirty := true, encoding := "UTF-8", lineEnding := "LF",
                         headings := [] }],
          activeTabPath := some "a.md",
          editorViewState := { doc := "hello", isDark := false,
                               fontFamily := FontCfg.indexed 1, fontSize := 15,
                               highlightDark := false, spotlight := false },
          activeFileHeadings := [], isDarkMode := false, currentFontIndex := 1,
          userFontFamily := "default", currentFontSize := 15, isSpotlightMode := false,
          recentFiles := [], notices := [] } :=
  closeTab_dirty_declined_noop _ _ "a.md" _ rfl rfl

/-! ### C9 — cursor clamp filter -/

/-- C9: every dispatched transaction that sets a selection whose main
head exceeds the new document length has its selection replaced by a
cursor anchored at the document end; consequently, starting from a state
whose cursor is in bounds, any sequence of transactions (with CodeMirror
mapping positions into range whenever no selection is set, which is the
`WFTransaction` contract) keeps the cursor at or below the document
length. -/
theorem cursor_filter_clamps_and_invariant :
    (∀ (tr : EdTransaction) (sel : EdSelection), tr.selection = some sel →
       tr.newDoc.length < sel.head →
       (preventCursorBeyondDocEndFilter tr).selection
         = some { anchor := tr.newDoc.length, head := tr.newDoc.length })
    ∧ (∀ (st : EdViewState) (trs : List EdTransaction),
       st.cursor ≤ st.doc.length → (∀ tr ∈ trs, WFTransaction tr) →
       (applyTransactions st trs).cursor ≤ (applyTransactions st trs).doc.length) := by
  constructor
  · intro tr sel hsel hlt
    simp only [preventCursorBeyondDocEndFilter, hsel]
    rw [if_pos hlt]
  · intro st trs h hwf
    exact applyTransactions_cursor_le trs st h hwf

/-- Witness for C9: a transaction shrinking the document to `"ab"` while
placing the head at 5 is clamped to a cursor at 2, and a one-transaction
sequence keeps the invariant. -/
theorem cursor_filter_clamps_witness :
    ((2 : Nat) < 5
      ∧ (preventCursorBeyondDocEndFilter
          { newDoc := "ab", selection := some { anchor := 5, head := 5 }, mappedHead := 0 }).selection
        = some { anchor := 2, head := 2 })
    ∧ ((applyTransactions { doc := "", cursor := 0 }
          [{ newDoc := "ab", selection := some { anchor := 5, head := 5 }, mappedHead := 0 }]).cursor
        ≤ (applyTransactions { doc := "", cursor := 0 }
          [{ newDoc := "ab", selection := some { anchor := 5, head := 5 }, mappedHead := 0 }]).doc.length) :=
  ⟨⟨by decide,
    cursor_filter_clamps_and_invariant.1
      { newDoc := "ab", selection := some { anchor := 5, head := 5 }, mappedHead := 0 }
      { anchor := 5, head := 5 } rfl (by decide)⟩,
   cursor_filter_clamps_and_invariant.2 { doc := "", cursor := 0 } _ (by decide)
     (fun tr htr => by
        simp only [List.mem_singleton] at htr
        subst htr
        intro hnone
        exact Option.noConfusion hnone)⟩

/-! ### C10 — font-size bounds -/

/-- C10 counterexample: `loadSettings` (main.ts:283-284) assigns
`currentFontSize` straight from the persisted store with no range check,
so a stored value of 100 becomes the current font size even though the
same value passed to `changeFontSize` would be rejected — refuting the
claim that every font-size mutation goes through `changeFontSize` and
that the size therefore always stays within [8, 72]. -/
theorem fontSize_load_bypasses_clamp :
    (loadSettingsFontSize (some 100) fontSizeStart).currentFontSize = 100
    ∧ changeFontSize 100 fontSizeStart = fontSizeStart
    ∧ ¬((100 : Int) ≤ 72) := by
  refine ⟨rfl, ?_, by decide⟩
  simp [changeFontSize, fontSizeStart]

/-- C10 (amended): `changeFontSize` leaves the state (size, compartment
reconfigurations, settings writes) untouched for a requested size below 8
or above 72 and otherwise installs the requested size; hence any sequence
of `changeFontSize` calls starting from the initial size 15 keeps the
current font size within [8, 72].  (The restore path in `loadSettings` is
outside this guarantee, as the counterexample shows.) -/
theorem changeFontSize_range_invariant :
    (∀ (n : Int) (st : FontSizeState), (n < 8 ∨ n > 72) → changeFontSize n st = st)
    ∧ (∀ (n : Int) (st : FontSizeState), 8 ≤ n → n ≤ 72 →
        (changeFontSize n st).currentFontSize = n)
    ∧ (∀ ns : List Int,
        8 ≤ (ns.foldl (fun s n => changeFontSize n s) fontSizeStart).currentFontSize
        ∧ (ns.foldl (fun s n => changeFontSize n s) fontSizeStart).currentFontSize ≤ 72) := by
  refine ⟨?_, ?_, ?_⟩
  · intro n st h
    simp [changeFontSize, h]
  · intro n st h1 h2
    have h : ¬(n < 8 ∨ n > 72) := by omega
    simp [changeFontSize, h]
  · intro ns
    exact changeFontSize_foldl_range ns fontSizeStart (by decide) (by decide)

/-- Witness for C10 (amended) at concrete sizes. -/
theorem changeFontSize_range_invariant_witness :
    (((100 : Int) < 8 ∨ (100 : Int) > 72) ∧ changeFontSize 100 fontSizeStart = fontSizeStart)
    ∧ ((8 : Int) ≤ 20 ∧ (20 : Int) ≤ 72
        ∧ (changeFontSize 20 fontSizeStart).currentFontSize = 20) :=
  ⟨⟨by decide, changeFontSize_range_invariant.1 100 fontSizeStart (by decide)⟩,
   ⟨by decide, by decide,
    changeFontSize_range_invariant.2.1 20 fontSizeStart (by decide) (by decide)⟩⟩

/-! ### C6 — background image reset -/

/-- C6 counterexample: with dark mode on, applying a user background path
and then the explicit `null` reset leaves the rendered CSS background at
`'none'` (the dark-mode rendering), not the built-in default image, so
the claim as stated — which quantifies over every state in which a prior
non-null value was applied — fails. -/
theorem background_null_dark_counterexample :
    (applyBackgroundSetting (some (some "/bg.png"))
        { isDarkMode := true, userBackgroundImagePath := some "",
          cssBgImage := BgCss.cssNone }).userBackgroundImagePath
      = some "/bg.png"
    ∧ (applyBackgroundSetting (some none)
        (applyBackgroundSetting (some (some "/bg.png"))
          { isDarkMode := true, userBackgroundImagePath := some "",
            cssBgImage := BgCss.cssNone })).cssBgImage
      = BgCss.cssNone
    ∧ BgCss.cssNone ≠ BgCss.defaultUrl := by
  refine ⟨rfl, rfl, by decide⟩

/-- C6 (amended): receiving an explicit `null` for
`userBackgroundImagePath` always clears the stored user path (no stale
path is retained), and — whenever dark mode is off, which is the only
mode that renders a background image at all — the rendered background
reverts to the built-in default image. -/
theorem background_null_reverts_default :
    (∀ st : BackgroundState, st.isDarkMode = false →
       (applyBackgroundSetting (some none) st).cssBgImage = BgCss.defaultUrl)
    ∧ (∀ st : BackgroundState,
       (applyBackgroundSetting (some none) st).userBackgroundImagePath = none) := by
  constructor
  · intro st h
    simp [applyBackgroundSetting, updateBackground, jsOrUndef, h]
  · intro st
    by_cases h : st.isDarkMode <;>
      simp [applyBackgroundSetting, updateBackground, jsOrUndef, h]

/-- Witness for C6 (amended) at a concrete light-mode state with a stale
user path. -/
theorem background_null_reverts_default_witness :
    (applyBackgroundSetting (some none)
        { isDarkMode := false, userBackgroundImagePath := some "/old.png",
          cssBgImage := BgCss.userUrl "/old.png" }).cssBgImage = BgCss.defaultUrl
    ∧ (applyBackgroundSetting (some none)
        { isDarkMode := false, userBackgroundImagePath := some "/old.png",
          cssBgImage := BgCss.userUrl "/old.png" }).userBackgroundImagePath = none :=
  ⟨background_null_reverts_default.1
      { isDarkMode := false, userBackgroundImagePath := some "/old.png",
        cssBgImage := BgCss.userUrl "/old.png" } rfl,
   background_null_reverts_default.2
      { isDarkMode := false, userBackgroundImagePath := some "/old.png",
        cssBgImage := BgCss.userUrl "/old.png" }⟩

/-! ### C7 — BGM source comparison -/

/-- C7 counterexample: the listener compares the raw stored path, not the
resolved source.  With the initial empty-string path (whose resolved
source is the built-in default) and an event carrying `null` (which also
resolves to the default), the resolved sources coincide, yet the backend
is torn down, reloaded and restarted (`loadCount` and `playCount` both
increase). -/
theorem bgm_identical_source_restart_counterexample :
    resolveBgmSource (jsOrUndef none)
      = ({ userBgmPath := some "", loadedSource := none, loadCount := 1,
           playCount := 1, isBgmPlaying := true } : BgmAudioState).loadedSource
    ∧ (applyBgmSetting (some none)
        { userBgmPath := some "", loadedSource := none, loadCount := 1,
          playCount := 1, isBgmPlaying := true }).loadCount = 2
    ∧ (applyBgmSetting (some none)
        { userBgmPath := some "", loadedSource := none, loadCount := 1,
          playCount := 1, isBgmPlaying := true }).playCount = 2 := by
  refine ⟨rfl, ?_, ?_⟩ <;> simp [applyBgmSetting, jsOrUndef, resolveBgmSource]

/-- C7 (amended): the no-reload guard keys on the coerced stored path
rather than the resolved source: an event whose coerced `userBgmPath`
equals the stored one changes nothing (no teardown, reload or restart),
and delivering the same payload twice in a row is idempotent — the second
delivery never restarts playback.  (When the stored path is the initial
empty string and the event carries `null`, the default track is restarted
even though the resolved source is unchanged, as the counterexample
shows.) -/
theorem bgm_unchanged_path_no_restart :
    (∀ (st : BgmAudioState) (v : Option String),
       jsOrUndef v = st.userBgmPath → applyBgmSetting (some v) st = st)
    ∧ (∀ (st : BgmAudioState) (v : Option String),
       applyBgmSetting (some v) (applyBgmSetting (some v) st)
         = applyBgmSetting (some v) st) := by
  constructor
  · intro st v h
    exact applyBgmSetting_noop_of_eq st v h
  · intro st v
    by_cases h : st.userBgmPath = jsOrUndef v
    · rw [applyBgmSetting_noop_of_eq st v h.symm, applyBgmSetting_noop_of_eq st v h.symm]
    · have hstep : applyBgmSetting (some v) st
          = { userBgmPath := jsOrUndef v,
              loadedSource := resolveBgmSource (jsOrUndef v),
              loadCount := st.loadCount + 1, playCount := st.playCount + 1,
              isBgmPlaying := true } := by
        simp only [applyBgmSetting]
        rw [if_pos h]
      rw [hstep, applyBgmSetting_noop_of_eq _ v rfl]

/-- Witness for C7 (amended): re-delivering the already-stored path is a
no-op. -/
theorem bgm_unchanged_path_no_restart_witness :
    jsOrUndef (some "/music.mp3")
      = ({ userBgmPath := some "/music.mp3", loadedSource := some "/music.mp3",
           loadCount := 1, playCount := 1, isBgmPlaying := true } : BgmAudioState).userBgmPath
    ∧ applyBgmSetting (some (some "/music.mp3"))
        { userBgmPath := some "/music.mp3", loadedSource := some "/music.mp3",
          loadCount := 1, playCount := 1, isBgmPlaying := true }
      = { userBgmPath := some "/music.mp3", loadedSource := some "/music.mp3",
          loadCount := 1, playCount := 1, isBgmPlaying := true } :=
  ⟨by simp [jsOrUndef],
   bgm_unchanged_path_no_restart.1
     { userBgmPath := some "/music.mp3", loadedSource := some "/music.mp3",
       loadCount := 1, playCount := 1, isBgmPlaying := true }
     (some "/music.mp3") (by simp [jsOrUndef])⟩

/-! ### C2 — heading extraction and reconciliation -/

/-- C2: the extractor produces exactly the headings of lines matching
"one-or-more markers, one whitespace, non-empty trimmed remainder", in
document order, with level = marker count and anchor = line start (first
conjunct); extractions have pairwise distinct anchors (second conjunct);
reconciliation copies the collapsed flag forward exactly onto entries
whose anchor and text both equal some previously collapsed heading's,
dropping unmatched old headings silently (third conjunct); and in the
spec's example — old `[{pos 0, "A", collapsed}]` against a re-extraction
`[{pos 5, "A"}, {pos 0, "B"}]` — neither new entry receives the flag
(fourth conjunct). -/
theorem headings_extract_exact_and_reconcile :
    (∀ text : String, extractHeadings text = headingsSpec text)
    ∧ (∀ text : String, (extractHeadings text).Pairwise (fun a b => a.pos ≠ b.pos))
    ∧ (∀ old new : List Heading, new.Pairwise (fun a b => a.pos ≠ b.pos) →
        reconcileHeadings old new
          = new.map (fun h => if anyHeadingMatch old h then collapseHeading h else h))
    ∧ reconcileHeadings
        [{ level := 1, text := "A", pos := 0, isCollapsed := true }]
        [{ level := 1, text := "A", pos := 5, isCollapsed := false },
         { level := 1, text := "B", pos := 0, isCollapsed := false }]
      = [{ level := 1, text := "A", pos := 5, isCollapsed := false },
         { level := 1, text := "B", pos := 0, isCollapsed := false }] :=
  ⟨extractHeadings_eq_spec, extractHeadings_pairwise,
   fun old new h => reconcileHeadings_eq_map old new h, by decide⟩

/-- Witness for C2 at a concrete document and a concrete reconciliation
(whose single entry is reclaimed by an old collapsed heading). -/
theorem headings_extract_exact_witness :
    extractHeadings "# T\nbody" = headingsSpec "# T\nbody"
    ∧ reconcileHeadings
        [{ level := 1, text := "T", pos := 0, isCollapsed := true }]
        [{ level := 1, text := "T", pos := 0, isCollapsed := false }]
      = [{ level := 1, text := "T", pos := 0, isCollapsed := false }].map
          (fun h =>
            if anyHeadingMatch [{ level := 1, text := "T", pos := 0, isCollapsed := true }] h
            then collapseHeading h else h) :=
  ⟨headings_extract_exact_and_reconcile.1 "# T\nbody",
   headings_extract_exact_and_reconcile.2.2.1
     [{ level := 1, text := "T", pos := 0, isCollapsed := true }]
     [{ level := 1, text := "T", pos := 0, isCollapsed := false }]
     (by simp)⟩

/-! ### C5 — read failure leaves the session unchanged -/

/-- C5: when `openOrSwitchTab` is called for a path that is not open and
the file read fails, the error is surfaced as a notice, and the session
is otherwise unchanged: the open-tab list keeps the same paths and dirty
flags (no tab, half-initialised or otherwise, is appended), the active
tab stays what it was, and the widget state is untouched. -/
theorem openOrSwitchTab_read_error_aborts
    (fs : String → Except String FileData) (app : AppState) (p e : String)
    (hactive : app.activeTabPath ≠ some p)
    (hnone : app.openTabs.find? (fun t => t.path == p) = none)
    (herr : fs p = Except.error e) :
    (openOrSwitchTab fs app p).openTabs.map (fun t => (t.path, t.isDirty))
        = app.openTabs.map (fun t => (t.path, t.isDirty))
    ∧ (openOrSwitchTab fs app p).activeTabPath = app.activeTabPath
    ∧ (openOrSwitchTab fs app p).editorViewState = app.editorViewState
    ∧ (openOrSwitchTab fs app p).notices = app.notices ++ [readErrNotice e] := by
  have hcap : (capturePrev app).openTabs.find? (fun t => t.path == p) = none := by
    rw [find?_capturePrev_ne app p hactive]
    exact hnone
  have hres : openOrSwitchTab fs app p
      = { capturePrev app with notices := (capturePrev app).notices ++ [readErrNotice e] } := by
    simp only [openOrSwitchTab]
    rw [if_neg hactive, hcap, herr]
  rw [hres]
  refine ⟨?_, ?_, ?_, ?_⟩
  · exact capturePrev_map_pathDirty app
  · exact capturePrev_activeTabPath app
  · exact capturePrev_editorViewState app
  · rw [capturePrev_notices app]

/-- Witness for C5: opening a missing file from a one-tab session. -/
theorem openOrSwitchTab_read_error_aborts_witness :
    (openOrSwitchTab (fun _ => Except.error "unsupported encoding")
      { openTabs := [{ path := "a.md",
                       state := { doc := "hello", isDark := false,
                                  fontFamily := FontCfg.indexed 1, fontSize := 15,
                                  highlightDark := false, spotlight := false },
                       isDirty := true, encoding := "UTF-8", lineEnding := "LF",
                       headings := [] }],
        activeTabPath := some "a.md",
        editorViewState := { doc := "hello", isDark := false,
                             fontFamily := FontCfg.indexed 1, fontSize := 15,
                             highlightDark := false, spotlight := false },
        activeFileHeadings := [], isDarkMode := false, currentFontIndex := 1,
        userFontFamily := "default", currentFontSize := 15, isSpotlightMode := false,
        recentFiles := [], notices := [] }
      "missing.md").openTabs.map (fun t => (t.path, t.isDirty))
      = [("a.md", true)]
    ∧ (openOrSwitchTab (fun _ => Except.error "unsupported encoding")
      { openTabs := [{ path := "a.md",
                       state := { doc := "hello", isDark := false,
                                  fontFamily := FontCfg.indexed 1, fontSize := 15,
                                  highlightDark := false, spotlight := false },
                       isDirty := true, encoding := "UTF-8", lineEnding := "LF",
                       headings := [] }],
        activeTabPath := some "a.md",
        editorViewState := { doc := "hello", isDark := false,
                             fontFamily := FontCfg.indexed 1, fontSize := 15,
                             highlightDark := false, spotlight := false },
        activeFileHeadings := [], isDarkMode := false, currentFontIndex := 1,
        userFontFamily := "default", currentFontSize := 15, isSpotlightMode := false,
        recentFiles := [], notices := [] }
      "missing.md").activeTabPath = some "a.md" := by
  have h := openOrSwitchTab_read_error_aborts (fun _ => Except.error "unsupported encoding")
    { openTabs := [{ path := "a.md",
                     state := { doc := "hello", isDark := false,
                                fontFamily := FontCfg.indexed 1, fontSize := 15,
                                highlightDark := false, spotlight := false },
                     isDirty := true, encoding := "UTF-8", lineEnding := "LF",
                     headings := [] }],
      activeTabPath := some "a.md",
      editorViewState := { doc := "hello", isDark := false,
                           fontFamily := FontCfg.indexed 1, fontSize := 15,
                           highlightDark := false, spotlight := false },
      activeFileHeadings := [], isDarkMode := false, currentFontIndex := 1,
      userFontFamily := "default", currentFontSize := 15, isSpotlightMode := false,
      recentFiles := [], notices := [] }
    "missing.md" "unsupported encoding" (by simp) (by decide) rfl
  exact ⟨h.1, h.2.1⟩

/-! ### C1 — capture before switch, compose before display -/

/-- C1: whenever `openOrSwitchTab` is invoked with a path different from
the active tab's path, it first stores the live widget state (with every
edit made while that tab was active) and the live outline into the
previously active tab, and only then composes the current theme, font
family, font size, highlight style and spotlight configuration on top of
the target tab's stored state and hands that composed state to the
widget, making the target the active tab.  Since this holds for every
application state, no edit in an active tab is ever lost across a
sequence of open/switch calls. -/
theorem openOrSwitchTab_capture_then_compose
    (fs : String → Except String FileData) (app : AppState) (p prev : String)
    (prevTab tgt : OpenTab)
    (hactive : app.activeTabPath = some prev)
    (hne : prev ≠ p)
    (hprev : app.openTabs.find? (fun t => t.path == prev) = some prevTab)
    (htgt : app.openTabs.find? (fun t => t.path == p) = some tgt) :
    (openOrSwitchTab fs app p).openTabs.find? (fun t => t.path == prev)
        = some { prevTab with state := app.editorViewState,
                              headings := app.activeFileHeadings }
    ∧ (openOrSwitchTab fs app p).editorViewState = applyConfig app tgt.state
    ∧ (openOrSwitchTab fs app p).activeTabPath = some p := by
  have hactive2 : app.activeTabPath ≠ some p := by
    rw [hactive]
    intro hh
    exact hne (Option.some.inj hh)
  have hcapfind : (capturePrev app).openTabs.find? (fun t => t.path == p) = some tgt := by
    rw [find?_capturePrev_ne app p hactive2]
    exact htgt
  have hres : openOrSwitchTab fs app p = activateTab (capturePrev app) p tgt := by
    simp only [openOrSwitchTab]
    rw [if_neg hactive2, hcapfind]
  rw [hres]
  refine ⟨?_, ?_, ?_⟩
  · show (updateFirstTab p
        (fun t => { t with state := applyConfig (capturePrev app) tgt.state })
        (capturePrev app).openTabs).find? (fun t => t.path == prev)
      = some { prevTab with state := app.editorViewState,
                            headings := app.activeFileHeadings }
    rw [find?_updateFirstTab_ne p prev
        (fun t => { t with state := applyConfig (capturePrev app) tgt.state })
        (fun t => rfl) (Ne.symm hne) (capturePrev app).openTabs]
    have : (capturePrev app).openTabs
        = updateFirstTab prev
            (fun t => { t with state := app.editorViewState,
                               headings := app.activeFileHeadings })
            app.openTabs := by
      simp [capturePrev, hactive]
    rw [this,
      find?_updateFirstTab_eq prev
        (fun t => { t with state := app.editorViewState,
                           headings := app.activeFileHeadings })
        (fun t => rfl) app.openTabs,
      hprev]
    rfl
  · show applyConfig (capturePrev app) tgt.state = applyConfig app tgt.state
    exact applyConfig_capturePrev app tgt.state
  · rfl

/-- Witness for C1: switching from a dirty `"a.md"` (widget doc
`"hello edited"`) to an open `"b.md"` stores the edited widget state into
the `"a.md"` tab and shows `"b.md"`'s stored document with the current
configuration composed on top. -/
theorem openOrSwitchTab_capture_then_compose_witness :
    (openOrSwitchTab (fun _ => Except.error "unused")
      { openTabs := [{ path := "a.md",
                       state := { doc := "hello", isDark := false,
                                  fontFamily := FontCfg.indexed 1, fontSize := 15,
                                  highlightDark := false, spotlight := false },
                       isDirty := true, encoding := "UTF-8", lineEnding := "LF",
                       headings := [] },
                     { path := "b.md",
                       state := { doc := "# B doc", isDark := true,
                                  fontFamily := FontCfg.indexed 0, fontSize := 11,
                                  highlightDark := true, spotlight := true },
                       isDirty := false, encoding := "UTF-8", lineEnding := "LF",
                       headings := [] }],
        activeTabPath := some "a.md",
        editorViewState := { doc := "hello edited", isDark := false,
                             fontFamily := FontCfg.indexed 1, fontSize := 15,
                             highlightDark := false, spotlight := false },
        activeFileHeadings := [], isDarkMode := false, currentFontIndex := 1,
        userFontFamily := "default", currentFontSize := 15, isSpotlightMode := false,
        recentFiles := [], notices := [] }
      "b.md").openTabs.find? (fun t => t.path == "a.md")
      = some { path := "a.md",
               state := { doc := "hello edited", isDark := false,
                          fontFamily := FontCfg.indexed 1, fontSize := 15,
                          highlightDark := false, spotlight := false },
               isDirty := true, encoding := "UTF-8", lineEnding := "LF",
               headings := [] }
    ∧ (openOrSwitchTab (fun _ => Except.error "unused")
      { openTabs := [{ path := "a.md",
                       state := { doc := "hello", isDark := false,
                                  fontFamily := FontCfg.indexed 1, fontSize := 15,
                                  highlightDark := false, spotlight := false },
                       isDirty := true, encoding := "UTF-8", lineEnding := "LF",
                       headings := [] },
                     { path := "b.md",
                       state := { doc := "# B doc", isDark := true,
                                  fontFamily := FontCfg.indexed 0, fontSize := 11,
                                  highlightDark := true, spotlight := true },
                       isDirty := false, encoding := "UTF-8", lineEnding := "LF",
                       headings := [] }],
        activeTabPath := some "a.md",
        editorViewState := { doc := "hello edited", isDark := false,
                             fontFamily := FontCfg.indexed 1, fontSize := 15,
                             highlightDark := false, spotlight := false },
        activeFileHeadings := [], isDarkMode := false, currentFontIndex := 1,
        userFontFamily := "default", currentFontSize := 15, isSpotlightMode := false,
        recentFiles := [], notices := [] }
      "b.md").editorViewState
      = { doc := "# B doc", isDark := false,
          fontFamily := FontCfg.indexed 1, fontSize := 15,
          highlightDark := false, spotlight := false } := by
  have h := openOrSwitchTab_capture_then_compose (fun _ => Except.error "unused")
    { openTabs := [{ path := "a.md",
                     state := { doc := "hello", isDark := false,
                                fontFamily := FontCfg.indexed 1, fontSize := 15,
                                highlightDark := false, spotlight := false },
                     isDirty := true, encoding := "UTF-8", lineEnding := "LF",
                     headings := [] },
                   { path := "b.md",
                     state := { doc := "# B doc", isDark := true,
                                fontFamily := FontCfg.indexed 0, fontSize := 11,
                                highlightDark := true, spotlight := true },
                     isDirty := false, encoding := "UTF-8", lineEnding := "LF",
                     headings := [] }],
      activeTabPath := some "a.md",
      editorViewState := { doc := "hello edited", isDark := false,
                           fontFamily := FontCfg.indexed 1, fontSize := 15,
                           highlightDark := false, spotlight := false },
      activeFileHeadings := [], isDarkMode := false, currentFontIndex := 1,
      userFontFamily := "default", currentFontSize := 15, isSpotlightMode := false,
      recentFiles := [], notices := [] }
    "b.md" "a.md"
    { path := "a.md",
      state := { doc := "hello", isDark := false,
                 fontFamily := FontCfg.indexed 1, fontSize := 15,
                 highlightDark := false, spotlight := false },
      isDirty := true, encoding := "UTF-8", lineEnding := "LF", headings := [] }
    { path := "b.md",
      state := { doc := "# B doc", isDark := true,
                 fontFamily := FontCfg.indexed 0, fontSize := 11,
                 highlightDark := true, spotlight := true },
      isDirty := false, encoding := "UTF-8", lineEnding := "LF", headings := [] }
    rfl (by decide) rfl rfl
  exact ⟨h.1, h.2.1⟩

/-! ### C8 — creating a blank tab -/

/-- C8 counterexample: when an `"Untitled"` tab is already open and
active (here dirty, with widget document `"hello"`), `createNewTab` still
appends a second blank `"Untitled"` tab, but the subsequent
`openOrSwitchTab "Untitled"` returns immediately because the active path
already equals `"Untitled"`: the newly created tab (stored document `""`,
the last list entry) is neither activated nor displayed — the widget
keeps showing `"hello"`. -/
theorem createNewTab_existing_untitled_counterexample :
    (createNewTab (fun _ => Except.error "unused")
      { openTabs := [{ path := "Untitled",
                       state := { doc := "hello", isDark := false,
                                  fontFamily := FontCfg.indexed 1, fontSize := 15,
                                  highlightDark := false, spotlight := false },
                       isDirty := true, encoding := "UTF-8", lineEnding := "LF",
                       headings := [] }],
        activeTabPath := some "Untitled",
        editorViewState := { doc := "hello", isDark := false,
                             fontFamily := FontCfg.indexed 1, fontSize := 15,
                             highlightDark := false, spotlight := false },
        activeFileHeadings := [], isDarkMode := false, currentFontIndex := 1,
        userFontFamily := "default", currentFontSize := 15, isSpotlightMode := false,
        recentFiles := [], notices := [] }).openTabs.map (fun t => t.path)
      = ["Untitled", "Untitled"]
    ∧ (createNewTab (fun _ => Except.error "unused")
      { openTabs := [{ path := "Untitled",
                       state := { doc := "hello", isDark := false,
                                  fontFamily := FontCfg.indexed 1, fontSize := 15,
                                  highlightDark := false, spotlight := false },
                       isDirty := true, encoding := "UTF-8", lineEnding := "LF",
                       headings := [] }],
        activeTabPath := some "Untitled",
        editorViewState := { doc := "hello", isDark := false,
                             fontFamily := FontCfg.indexed 1, fontSize := 15,
                             highlightDark := false, spotlight := false },
        activeFileHeadings := [], isDarkMode := false, currentFontIndex := 1,
        userFontFamily := "default", currentFontSize := 15, isSpotlightMode := false,
        recentFiles := [], notices := [] }).editorViewState.doc = "hello"
    ∧ ((createNewTab (fun _ => Except.error "unused")
      { openTabs := [{ path := "Untitled",
                       state := { doc := "hello", isDark := false,
                                  fontFamily := FontCfg.indexed 1, fontSize := 15,
                                  highlightDark := false, spotlight := false },
                       isDirty := true, encoding := "UTF-8", lineEnding := "LF",
                       headings := [] }],
        activeTabPath := some "Untitled",
        editorViewState := { doc := "hello", isDark := false,
                             fontFamily := FontCfg.indexed 1, fontSize := 15,
                             highlightDark := false, spotlight := false },
        activeFileHeadings := [], isDarkMode := false, currentFontIndex := 1,
        userFontFamily := "default", currentFontSize := 15, isSpotlightMode := false,
        recentFiles := [], notices := [] }).openTabs.getLast?).map (fun t => t.state.doc)
      = some ""
    ∧ "hello" ≠ "" := by
  refine ⟨rfl, rfl, rfl, by decide⟩


/-! ### Projection lemmas for the activation tail -/

theorem activateTab_activeTabPath (app : AppState) (p : String) (tab : OpenTab) :
    (activateTab app p tab).activeTabPath = some p := rfl

theorem activateTab_editorViewState (app : AppState) (p : String) (tab : OpenTab) :
    (activateTab app p tab).editorViewState = applyConfig app tab.state := rfl

theorem activateTab_map_path (app : AppState) (p : String) (tab : OpenTab) :
    (activateTab app p tab).openTabs.map (fun t => t.path)
      = app.openTabs.map (fun t => t.path) := by
  simp only [activateTab]
  exact map_path_updateFirstTab p
    (fun t => { t with state := applyConfig app tab.state })
    (fun t => rfl) app.openTabs

theorem activateTab_find?_self (app : AppState) (p : String) (tab : OpenTab) :
    (activateTab app p tab).openTabs.find? (fun t => t.path == p)
      = Option.map (fun t => { t with state := applyConfig app tab.state })
          (app.openTabs.find? (fun t => t.path == p)) := by
  simp only [activateTab]
  exact find?_updateFirstTab_eq p
    (fun t => { t with state := applyConfig app tab.state })
    (fun t => rfl) app.openTabs

/-- The branch of `openOrSwitchTab` taken when the target path is not
active but is already among the open tabs (after capture): activation. -/
theorem openOrSwitchTab_found (fs : String → Except String FileData) (app : AppState)
    (p : String) (tab : OpenTab)
    (hactive : app.activeTabPath ≠ some p)
    (hfind : (capturePrev app).openTabs.find? (fun t => t.path == p) = some tab) :
    openOrSwitchTab fs app p = activateTab (capturePrev app) p tab := by
  simp only [openOrSwitchTab]
  rw [if_neg hactive, hfind]

/-- C8 (amended): provided no open tab already carries the `"Untitled"`
path and the active path is not `"Untitled"`, `createNewTab` creates a
tab with the `"Untitled"` identity, empty content and `dirty = false`,
appends it to the open-tab list, activates it and hands its (configured)
empty state to the widget.  When an `"Untitled"` tab already exists, the
blank tab is still appended but activation resolves by path and targets
the pre-existing tab — or is skipped entirely if `"Untitled"` is already
active, as the counterexample shows. -/
theorem createNewTab_blank_activation
    (fs : String → Except String FileData) (app : AppState)
    (hno : ∀ t ∈ app.openTabs, t.path ≠ "Untitled")
    (hact : app.activeTabPath ≠ some "Untitled") :
    (createNewTab fs app).activeTabPath = some "Untitled"
    ∧ (createNewTab fs app).openTabs.map (fun t => t.path)
        = app.openTabs.map (fun t => t.path) ++ ["Untitled"]
    ∧ (createNewTab fs app).editorViewState = freshEState app ""
    ∧ (createNewTab fs app).editorViewState.doc = ""
    ∧ (createNewTab fs app).openTabs.find? (fun t => t.path == "Untitled")
        = some { path := "Untitled", state := freshEState app "", isDirty := false,
                 encoding := "UTF-8", lineEnding := "LF", headings := [] } := by
  have hact2 : ({ app with openTabs := app.openTabs ++
      [{ path := "Untitled", state := freshEState app "", isDirty := false,
         encoding := "UTF-8", lineEnding := "LF", headings := [] }] } : AppState).activeTabPath
      ≠ some "Untitled" := hact
  have hcapfind : (capturePrev { app with openTabs := app.openTabs ++
      [{ path := "Untitled", state := freshEState app "", isDirty := false,
         encoding := "UTF-8", lineEnding := "LF", headings := [] }] }).openTabs.find?
        (fun t => t.path == "Untitled")
      = some { path := "Untitled", state := freshEState app "", isDirty := false,
               encoding := "UTF-8", lineEnding := "LF", headings := [] } := by
    rw [find?_capturePrev_ne _ "Untitled" hact2]
    exact find?_append_last "Untitled" _ rfl app.openTabs hno
  have hres : createNewTab fs app
      = activateTab (capturePrev { app with openTabs := app.openTabs ++
          [{ path := "Untitled", state := freshEState app "", isDirty := false,
             encoding := "UTF-8", lineEnding := "LF", headings := [] }] }) "Untitled"
          { path := "Untitled", state := freshEState app "", isDirty := false,
            encoding := "UTF-8", lineEnding := "LF", headings := [] } := by
    show openOrSwitchTab fs { app with openTabs := app.openTabs ++
        [{ path := "Untitled", state := freshEState app "", isDirty := false,
           encoding := "UTF-8", lineEnding := "LF", headings := [] }] } "Untitled" = _
    exact openOrSwitchTab_found fs _ "Untitled" _ hact2 hcapfind
  have hcompose : applyConfig (capturePrev { app with openTabs := app.openTabs ++
      [{ path := "Untitled", state := freshEState app "", isDirty := false,
         encoding := "UTF-8", lineEnding := "LF", headings := [] }] })
      ({ path := "Untitled", state := freshEState app "", isDirty := false,
         encoding := "UTF-8", lineEnding := "LF", headings := [] } : OpenTab).state
      = freshEState app "" := by
    rw [applyConfig_capturePrev]
    simp [applyConfig, freshEState, getCurrentFontTheme]
  have hview : (createNewTab fs app).editorViewState = freshEState app "" := by
    rw [hres, activateTab_editorViewState]
    exact hcompose
  refine ⟨?_, ?_, hview, ?_, ?_⟩
  · rw [hres, activateTab_activeTabPath]
  · rw [hres, activateTab_map_path, capturePrev_map_path]
    simp
  · rw [hview]
    rfl
  · rw [hres, activateTab_find?_self, hcapfind, Option.map_some', hcompose]

/-- Witness for C8 (amended): creating a blank tab from a one-tab session
whose open tab is `"a.md"`. -/
theorem createNewTab_blank_activation_witness :
    (createNewTab (fun _ => Except.error "unused")
      { openTabs := [{ path := "a.md",
                       state := { doc := "hello", isDark := false,
                                  fontFamily := FontCfg.indexed 1, fontSize := 15,
                                  highlightDark := false, spotlight := false },
                       isDirty := false, encoding := "UTF-8", lineEnding := "LF",
                       headings := [] }],
        activeTabPath := some "a.md",
        editorViewState := { doc := "hello", isDark := false,
                             fontFamily := FontCfg.indexed 1, fontSize := 15,
                             highlightDark := false, spotlight := false },
        activeFileHeadings := [], isDarkMode := false, currentFontIndex := 1,
        userFontFamily := "default", currentFontSize := 15, isSpotlightMode := false,
        recentFiles := [], notices := [] }).activeTabPath = some "Untitled"
    ∧ (createNewTab (fun _ => Except.error "unused")
      { openTabs := [{ path := "a.md",
                       state := { doc := "hello", isDark := false,
                                  fontFamily := FontCfg.indexed 1, fontSize := 15,
                                  highlightDark := false, spotlight := false },
                       isDirty := false, encoding := "UTF-8", lineEnding := "LF",
                       headings := [] }],
        activeTabPath := some "a.md",
        editorViewState := { doc := "hello", isDark := false,
                             fontFamily := FontCfg.indexed 1, fontSize := 15,
                             highlightDark := false, spotlight := false },
        activeFileHeadings := [], isDarkMode := false, currentFontIndex := 1,
        userFontFamily := "default", currentFontSize := 15, isSpotlightMode := false,
        recentFiles := [], notices := [] }).editorViewState.doc = "" := by
  have h := createNewTab_blank_activation (fun _ => Except.error "unused")
    { openTabs := [{ path := "a.md",
                     state := { doc := "hello", isDark := false,
                                fontFamily := FontCfg.indexed 1, fontSize := 15,
                                highlightDark := false, spotlight := false },
                     isDirty := false, encoding := "UTF-8", lineEnding := "LF",
                     headings := [] }],
      activeTabPath := some "a.md",
      editorViewState := { doc := "hello", isDark := false,
                           fontFamily := FontCfg.indexed 1, fontSize := 15,
                           highlightDark := false, spotlight := false },
      activeFileHeadings := [], isDarkMode := false, currentFontIndex := 1,
      userFontFamily := "default", currentFontSize := 15, isSpotlightMode := false,
      recentFiles := [], notices := [] }
    (by decide) (by simp)
  exact ⟨h.1, h.2.2.2.1⟩
